import Mathlib

/-
Verification development for the Soil Condition Inference Engine
(src/src/services/soilAnalysisService.js and src/src/utils/analysisUtils.js).

JavaScript numbers are modelled by `JsVal`: a rational for every ordinary
(finite) value, plus the three degenerate values +Infinity, -Infinity and
NaN that arise from division by zero.  Arithmetic, comparison, `Math.min`,
`Math.max` and `Math.round` follow the JavaScript semantics on these
values (NaN is absorbing for arithmetic and makes every comparison false;
`Math.min`/`Math.max` return NaN whenever an argument is NaN).  Floating
point rounding error is abstracted away: finite values are exact rationals.
-/

/-- Model of a JavaScript number: a finite rational, an infinity, or NaN. -/
inductive JsVal where
  | fin : ℚ → JsVal
  | posInf : JsVal
  | negInf : JsVal
  | nan : JsVal
deriving DecidableEq

namespace JsVal

/-- JavaScript addition. -/
def add : JsVal → JsVal → JsVal
  | fin a, fin b => fin (a + b)
  | nan, _ => nan
  | _, nan => nan
  | posInf, negInf => nan
  | negInf, posInf => nan
  | posInf, _ => posInf
  | _, posInf => posInf
  | negInf, _ => negInf
  | _, negInf => negInf

/-- JavaScript negation. -/
def neg : JsVal → JsVal
  | fin a => fin (-a)
  | posInf => negInf
  | negInf => posInf
  | nan => nan

/-- JavaScript subtraction. -/
def sub (a b : JsVal) : JsVal := add a (neg b)

/-- JavaScript multiplication (infinity times zero is NaN). -/
def mul : JsVal → JsVal → JsVal
  | fin a, fin b => fin (a * b)
  | nan, _ => nan
  | _, nan => nan
  | posInf, posInf => posInf
  | posInf, negInf => negInf
  | negInf, posInf => negInf
  | negInf, negInf => posInf
  | posInf, fin b => if 0 < b then posInf else if b < 0 then negInf else nan
  | fin a, posInf => if 0 < a then posInf else if a < 0 then negInf else nan
  | negInf, fin b => if 0 < b then negInf else if b < 0 then posInf else nan
  | fin a, negInf => if 0 < a then negInf else if a < 0 then posInf else nan

/-- JavaScript `<` (false whenever NaN is involved). -/
def lt : JsVal → JsVal → Bool
  | fin a, fin b => decide (a < b)
  | nan, _ => false
  | _, nan => false
  | negInf, negInf => false
  | negInf, _ => true
  | _, negInf => false
  | posInf, _ => false
  | _, posInf => true

/-- JavaScript `<=` (false whenever NaN is involved). -/
def le : JsVal → JsVal → Bool
  | fin a, fin b => decide (a ≤ b)
  | nan, _ => false
  | _, nan => false
  | negInf, _ => true
  | _, negInf => false
  | _, posInf => true
  | posInf, _ => false

/-- JavaScript `>`. -/
def gt (a b : JsVal) : Bool := lt b a

/-- JavaScript `>=`. -/
def ge (a b : JsVal) : Bool := le b a

/-- JavaScript `Math.min` (NaN absorbing). -/
def min : JsVal → JsVal → JsVal
  | fin a, fin b => fin (Min.min a b)
  | nan, _ => nan
  | _, nan => nan
  | negInf, _ => negInf
  | _, negInf => negInf
  | posInf, b => b
  | a, posInf => a

/-- JavaScript `Math.max` (NaN absorbing). -/
def max : JsVal → JsVal → JsVal
  | fin a, fin b => fin (Max.max a b)
  | nan, _ => nan
  | _, nan => nan
  | posInf, _ => posInf
  | _, posInf => posInf
  | negInf, b => b
  | a, negInf => a

/-- JavaScript `Math.abs`. -/
def abs : JsVal → JsVal
  | fin a => fin |a|
  | nan => nan
  | _ => posInf

/-- JavaScript `Math.round` (half away from zero becomes half up on exact
rationals; infinities and NaN pass through). -/
def round : JsVal → JsVal
  | fin a => fin ⌊a + 1/2⌋
  | v => v

/-- `v` is a finite value lying in the closed interval from `lo` to `hi`
(decidable form, used for concrete evaluation). -/
def inRangeB (v : JsVal) (lo hi : ℚ) : Bool :=
  match v with
  | fin q => decide (lo ≤ q ∧ q ≤ hi)
  | _ => false

/-- Both values are finite and the first is at most the second. -/
def finLe (v w : JsVal) : Prop := ∃ p q : ℚ, v = fin p ∧ w = fin q ∧ p ≤ q

end JsVal

/-- JavaScript division of two finite values: the only source of
infinities and NaN in the engine. -/
def jsDiv (a b : ℚ) : JsVal :=
  if b ≠ 0 then .fin (a / b)
  else if 0 < a then .posInf
  else if a < 0 then .negInf
  else .nan

/-- Sentinel-2 band reading: reflectance per spectral band, as consumed by
the engine (fields mirror the destructured band identifiers in the source). -/
structure Bands where
  B02 : ℚ
  B03 : ℚ
  B04 : ℚ
  B08 : ℚ
  B8A : ℚ
  B11 : ℚ
  B12 : ℚ
deriving DecidableEq

/-- One satellite observation: identifier, capture timestamp (milliseconds,
as compared via `new Date(...)`), cloud-cover percentage, band reading. -/
structure Scene where
  id : String
  date : ℤ
  cloudCover : ℚ
  bands : Bands
deriving DecidableEq

/-- Spectral indices produced by `calculateVegetationIndices` in
soilAnalysisService.js (JavaScript values: NaN can propagate here). -/
structure Indices where
  ndvi : JsVal
  evi : JsVal
  ndmi : JsVal
  bsi : JsVal
deriving DecidableEq

/-- `Math.max(-1, Math.min(1, v))` as applied to every index in
`calculateVegetationIndices`. -/
def clampIndex (v : JsVal) : JsVal := JsVal.max (.fin (-1)) (JsVal.min (.fin 1) v)

/-- soilAnalysisService.js `selectBestScene`: `scenes.reduce` with `null`
seed, preferring lower cloud cover, then the more recent capture date. -/
def selectBestStep (best : Option Scene) (current : Scene) : Option Scene :=
  match best with
  | none => some current
  | some b =>
      if current.cloudCover < b.cloudCover then some current
      else if current.cloudCover = b.cloudCover ∧ b.date < current.date then some current
      else some b

/-- soilAnalysisService.js `selectBestScene`. -/
def selectBestScene (scenes : List Scene) : Option Scene :=
  scenes.foldl selectBestStep none

/-- soilAnalysisService.js `calculateVegetationIndices`: NDVI, EVI, NDMI and
BSI from the band reading, each passed through `Math.max(-1, Math.min(1, _))`.
No NaN/Infinity screening happens on this path. -/
def calculateVegetationIndices (b : Bands) : Indices :=
  { ndvi := clampIndex (jsDiv (b.B08 - b.B04) (b.B08 + b.B04)),
    evi := clampIndex (JsVal.mul (.fin (5/2))
      (jsDiv (b.B08 - b.B04) (b.B08 + 6 * b.B04 - (15/2) * b.B02 + 1))),
    ndmi := clampIndex (jsDiv (b.B08 - b.B11) (b.B08 + b.B11)),
    bsi := clampIndex (jsDiv ((b.B11 + b.B04) - (b.B08 + b.B02))
      ((b.B11 + b.B04) + (b.B08 + b.B02))) }

/-- Spectral indices produced by the utility calculator
`AnalysisUtils.calculateIndices` (always finite thanks to `safeCalculation`). -/
structure UtilIndices where
  ndvi : ℚ
  evi : ℚ
  ndmi : ℚ
  bsi : ℚ
  savi : ℚ
deriving DecidableEq

/-- analysisUtils.js `safeCalculation`: NaN or infinite results become 0,
finite results are clamped to the index range. -/
def safeCalculation (v : JsVal) : ℚ :=
  match v with
  | .fin q => Max.max (-1) (Min.min 1 q)
  | _ => 0

/-- analysisUtils.js `calculateIndices` validation:
`Object.values(bands).every(band => typeof band === 'number' && band >= 0 && band <= 1)`. -/
def bandsValid (b : Bands) : Bool :=
  decide (0 ≤ b.B02 ∧ b.B02 ≤ 1) && decide (0 ≤ b.B03 ∧ b.B03 ≤ 1) &&
  decide (0 ≤ b.B04 ∧ b.B04 ≤ 1) && decide (0 ≤ b.B08 ∧ b.B08 ≤ 1) &&
  decide (0 ≤ b.B8A ∧ b.B8A ≤ 1) && decide (0 ≤ b.B11 ∧ b.B11 ≤ 1) &&
  decide (0 ≤ b.B12 ∧ b.B12 ≤ 1)

/-- analysisUtils.js `calculateIndices`: throws `Invalid spectral band values`
unless every band value is a number in the unit interval, otherwise computes
the five indices through `safeCalculation`. -/
def calculateIndices (b : Bands) : Except String UtilIndices :=
  if bandsValid b then
    .ok
      { ndvi := safeCalculation (jsDiv (b.B08 - b.B04) (b.B08 + b.B04)),
        evi := safeCalculation (JsVal.mul (.fin (5/2))
          (jsDiv (b.B08 - b.B04) (b.B08 + 6 * b.B04 - (15/2) * b.B02 + 1))),
        ndmi := safeCalculation (jsDiv (b.B08 - b.B11) (b.B08 + b.B11)),
        bsi := safeCalculation (jsDiv ((b.B11 + b.B04) - (b.B08 + b.B02))
          ((b.B11 + b.B04) + (b.B08 + b.B02))),
        savi := safeCalculation (JsVal.mul
          (jsDiv (b.B08 - b.B04) (b.B08 + b.B04 + 1/2)) (.fin (3/2))) }
  else .error "Invalid spectral band values"

/-- Result of `analyzeSoilMoisture`. -/
structure MoistureResult where
  percentage : JsVal
  level : String
  description : String
  ndmiValue : JsVal
deriving DecidableEq

/-- soilAnalysisService.js `getMoistureLevel` (JavaScript `<` on the raw
moisture index, so NaN falls through every branch). -/
def getMoistureLevel (p : JsVal) : String :=
  if JsVal.lt p (.fin 15) then "very_low"
  else if JsVal.lt p (.fin 30) then "low"
  else if JsVal.lt p (.fin 60) then "moderate"
  else if JsVal.lt p (.fin 80) then "high"
  else "very_high"

/-- soilAnalysisService.js `getMoistureDescription`. -/
def getMoistureDescription (p : JsVal) : String :=
  if getMoistureLevel p = "very_low" then "Very dry soil, irrigation strongly recommended"
  else if getMoistureLevel p = "low" then "Dry soil, may need irrigation"
  else if getMoistureLevel p = "moderate" then "Adequate moisture for most crops"
  else if getMoistureLevel p = "high" then "Good moisture content"
  else "Potentially waterlogged, check drainage"

/-- Four-segment NDMI mapping at the head of `analyzeSoilMoisture`
(`let moistureIndex; if (ndmi > 0.4) ... else ...`). -/
def moistureIndexRaw (ndmi : JsVal) : JsVal :=
  if JsVal.gt ndmi (.fin (2/5)) then
    JsVal.add (.fin 70) (JsVal.mul (JsVal.sub ndmi (.fin (2/5))) (.fin 50))
  else if JsVal.gt ndmi (.fin (1/10)) then
    JsVal.add (.fin 40) (JsVal.mul (JsVal.sub ndmi (.fin (1/10))) (.fin 100))
  else if JsVal.gt ndmi (.fin (-(1/10))) then
    JsVal.add (.fin 15) (JsVal.mul (JsVal.add ndmi (.fin (1/10))) (.fin 125))
  else
    JsVal.add (.fin 5) (JsVal.max (.fin 0) (JsVal.mul (JsVal.add ndmi (.fin (3/10))) (.fin 50)))

/-- `const swirRatio = B11 / B12` in `analyzeSoilMoisture`. -/
def swirRatio (b : Bands) : JsVal := jsDiv b.B11 b.B12

/-- `moistureIndex *= (0.9 + (swirRatio - 1) * 0.1)`. -/
def moistureAfterSwir (b : Bands) (ndmi : JsVal) : JsVal :=
  JsVal.mul (moistureIndexRaw ndmi)
    (JsVal.add (.fin (9/10)) (JsVal.mul (JsVal.sub (swirRatio b) (.fin 1)) (.fin (1/10))))

/-- Latitude correction in `analyzeSoilMoisture`: tropical times 1.05,
polar times 0.95. -/
def moistureAfterLat (b : Bands) (ndmi : JsVal) (lat : ℚ) : JsVal :=
  if |lat| < 47/2 then JsVal.mul (moistureAfterSwir b ndmi) (.fin (21/20))
  else if 60 < |lat| then JsVal.mul (moistureAfterSwir b ndmi) (.fin (19/20))
  else moistureAfterSwir b ndmi

/-- `moistureIndex = Math.max(5, Math.min(95, moistureIndex))`. -/
def moistureClamped (b : Bands) (ndmi : JsVal) (lat : ℚ) : JsVal :=
  JsVal.max (.fin 5) (JsVal.min (.fin 95) (moistureAfterLat b ndmi lat))

/-- `Math.round(v * 100) / 100` (two-decimal rounding; infinities and NaN
pass through both steps unchanged). -/
def round2 (v : JsVal) : JsVal :=
  match v with
  | .fin q => .fin ((⌊q * 100 + 1/2⌋ : ℤ) / 100 : ℚ)
  | x => x

/-- `Math.round(v * 1000) / 1000` (three-decimal rounding). -/
def round3 (v : JsVal) : JsVal :=
  match v with
  | .fin q => .fin ((⌊q * 1000 + 1/2⌋ : ℤ) / 1000 : ℚ)
  | x => x

/-- `Math.round(v * 10) / 10` (one-decimal rounding). -/
def round1 (v : JsVal) : JsVal :=
  match v with
  | .fin q => .fin ((⌊q * 10 + 1/2⌋ : ℤ) / 10 : ℚ)
  | x => x

/-- soilAnalysisService.js `analyzeSoilMoisture` (the `location` argument is
used only through its latitude).  Note the source reports the rounded
percentage but derives level and description from the unrounded clamp. -/
def analyzeSoilMoisture (b : Bands) (ndmi : JsVal) (lat : ℚ) : MoistureResult :=
  { percentage := round2 (moistureClamped b ndmi lat),
    level := getMoistureLevel (moistureClamped b ndmi lat),
    description := getMoistureDescription (moistureClamped b ndmi lat),
    ndmiValue := round3 ndmi }

/-- Fertility assessment produced by `assessFertility`. -/
structure Fertility where
  score : JsVal
  level : String
  description : String
deriving DecidableEq

/-- The composition object as first assembled in `analyzeSoilComposition`
(before soil type and fertility are attached). -/
structure CompositionCore where
  clay : JsVal
  sand : JsVal
  silt : JsVal
  organicMatter : ℚ
  ironOxide : JsVal
  ph : JsVal
deriving DecidableEq

/-- Full result of `analyzeSoilComposition`. -/
structure CompositionResult where
  clay : JsVal
  sand : JsVal
  silt : JsVal
  organicMatter : ℚ
  ironOxide : JsVal
  ph : JsVal
  soilType : String
  typeDescription : String
  fertility : Fertility
deriving DecidableEq

/-- soilAnalysisService.js `estimatePH`: base 7 shifted by the SWIR1/Red
normalized difference, regional offsets, rounded then clamped to 4..9. -/
def estimatePH (b : Bands) (lat : ℚ) : JsVal :=
  let si := jsDiv (b.B11 - b.B04) (b.B11 + b.B04)
  let ph1 := JsVal.add (.fin 7) (JsVal.mul si (.fin 2))
  let ph2 := if 50 < lat then JsVal.sub ph1 (.fin (1/2)) else ph1
  let ph3 := if |lat| < 47/2 then JsVal.add ph2 (.fin (3/10)) else ph2
  JsVal.max (.fin 4) (JsVal.min (.fin 9) (round1 ph3))

/-- soilAnalysisService.js `getFertilityDescription`. -/
def getFertilityDescription (s : JsVal) : String :=
  if JsVal.gt s (.fin 75) then "Highly fertile soil suitable for most crops"
  else if JsVal.gt s (.fin 50) then "Moderately fertile soil with some improvement potential"
  else "Low fertility soil requiring amendments"

/-- soilAnalysisService.js `assessFertility`. -/
def assessFertility (c : CompositionCore) : Fertility :=
  let s1 : JsVal := .fin (50 + c.organicMatter * 5)
  let s2 := JsVal.add s1
    (JsVal.sub (.fin 20) (JsVal.mul (JsVal.abs (JsVal.sub c.ph (.fin (27/4)))) (.fin 10)))
  let s3 :=
    if JsVal.gt c.clay (.fin 20) ∧ JsVal.lt c.clay (.fin 50) ∧
       JsVal.gt c.sand (.fin 20) ∧ JsVal.lt c.sand (.fin 60) then
      JsVal.add s2 (.fin 15)
    else s2
  let s4 := JsVal.max (.fin 0) (JsVal.min (.fin 100) s3)
  { score := JsVal.round s4,
    level :=
      if JsVal.gt s4 (.fin 75) then "high"
      else if JsVal.gt s4 (.fin 50) then "medium"
      else "low",
    description := getFertilityDescription s4 }

/-- soilAnalysisService.js `determineSoilType` (type, description). -/
def determineSoilType (c : CompositionCore) : String × String :=
  if JsVal.gt c.clay (.fin 40) then
    ("Clay", "Heavy clay soil with good nutrient retention but poor drainage")
  else if JsVal.gt c.sand (.fin 70) then
    ("Sand", "Sandy soil with good drainage but low nutrient retention")
  else if JsVal.gt c.silt (.fin 40) then
    ("Silt", "Silty soil with good water retention and moderate drainage")
  else if JsVal.gt c.clay (.fin 25) ∧ JsVal.gt c.sand (.fin 25) then
    ("Clay Loam", "Well-balanced soil with good structure and fertility")
  else if JsVal.gt c.sand (.fin 50) then
    ("Sandy Loam", "Good drainage with reasonable nutrient retention")
  else
    ("Loam", "Ideal soil type with balanced properties")

/-- `const clayContent = B11 / B12` in `analyzeSoilComposition`. -/
def clayContent (b : Bands) : JsVal := jsDiv b.B11 b.B12

/-- Composition object of `analyzeSoilComposition` before the silt
remainder is filled in (`silt: 0`). -/
def compositionBase (b : Bands) (lat : ℚ) : CompositionCore :=
  { clay := JsVal.max (.fin 0) (JsVal.min (.fin 100) (JsVal.mul (clayContent b) (.fin 40))),
    sand := JsVal.max (.fin 0)
      (JsVal.min (.fin 100) (JsVal.mul (JsVal.sub (.fin 2) (clayContent b)) (.fin 30))),
    silt := .fin 0,
    organicMatter := Max.max 0 (Min.min 15 ((1 - (b.B04 + b.B11) / 2) * 8)),
    ironOxide := JsVal.max (.fin 0)
      (JsVal.min (.fin 10) (JsVal.mul (JsVal.sub (jsDiv b.B04 b.B02) (.fin 1)) (.fin 15))),
    ph := estimatePH b lat }

/-- `composition.silt = Math.max(0, 100 - composition.clay - composition.sand)`. -/
def compositionWithSilt (b : Bands) (lat : ℚ) : CompositionCore :=
  { compositionBase b lat with
      silt := JsVal.max (.fin 0)
        (JsVal.sub (JsVal.sub (.fin 100) (compositionBase b lat).clay)
          (compositionBase b lat).sand) }

/-- soilAnalysisService.js `analyzeSoilComposition`. -/
def analyzeSoilComposition (b : Bands) (lat : ℚ) : CompositionResult :=
  { clay := (compositionWithSilt b lat).clay,
    sand := (compositionWithSilt b lat).sand,
    silt := (compositionWithSilt b lat).silt,
    organicMatter := (compositionWithSilt b lat).organicMatter,
    ironOxide := (compositionWithSilt b lat).ironOxide,
    ph := (compositionWithSilt b lat).ph,
    soilType := (determineSoilType (compositionWithSilt b lat)).1,
    typeDescription := (determineSoilType (compositionWithSilt b lat)).2,
    fertility := assessFertility (compositionWithSilt b lat) }

/-- soilAnalysisService.js `calculateConfidence`: start at 100, subtract
twice the cloud cover, 20 for fewer than two scenes, age penalties, clamp
to 10..100, then map to a label.  `nowMs` models `new Date()`. -/
def calculateConfidence (bestScene : Scene) (allScenes : List Scene) (nowMs : ℤ) : String :=
  let c1 : ℚ := 100 - bestScene.cloudCover * 2
  let c2 : ℚ := if allScenes.length < 2 then c1 - 20 else c1
  let days : ℚ := ((nowMs - bestScene.date : ℤ) : ℚ) / 86400000
  let c3 : ℚ := if 30 < days then c2 - 10 else c2
  let c4 : ℚ := if 90 < days then c3 - 20 else c3
  let conf : ℚ := Max.max 10 (Min.min 100 c4)
  if 80 < conf then "high" else if 60 < conf then "medium" else "low"

/-- A recommendation record as pushed by `generateRecommendations` and its
helpers (all fields of the templates in the source). -/
structure Recommendation where
  type : String
  category : String
  priority : String
  severity : String
  message : String
  action : String
  details : String
  timeline : String
  cost : String
  impact : String
  seasonality : String
deriving DecidableEq

/-- soilAnalysisService.js `getSeason`: fixed Northern-Hemisphere quarter
boundaries on the zero-based month (the location argument is unused). -/
def getSeason (month : ℕ) : String :=
  if 2 ≤ month ∧ month ≤ 4 then "spring"
  else if 5 ≤ month ∧ month ≤ 7 then "summer"
  else if 8 ≤ month ∧ month ≤ 10 then "fall"
  else "winter"

/-- The `seasonalAdvice[practice]?.[season]` table lookup inside
`getSeasonalAdvice`. -/
def seasonalAdviceTable (practice season : String) : Option String :=
  if practice = "irrigation" then
    if season = "spring" then some "Monitor emerging crops closely for water needs"
    else if season = "summer" then some "Peak irrigation season - ensure adequate water supply"
    else if season = "fall" then some "Reduce irrigation as temperatures cool"
    else some "Minimal irrigation needed in most regions"
  else if practice = "planting" then
    if season = "spring" then some "Optimal time for most crop planting"
    else if season = "summer" then some "Plant heat-tolerant varieties"
    else if season = "fall" then some "Plant cool-season crops and cover crops"
    else some "Limited planting options in temperate regions"
  else if practice = "soil_amendment" then
    if season = "spring" then some "Apply amendments before planting"
    else if season = "summer" then some "Light applications to avoid plant stress"
    else if season = "fall" then some "Ideal time for major soil amendments"
    else some "Plan and prepare amendments for spring"
  else if practice = "liming" then
    if season = "spring" then some "Apply lime before planting season"
    else if season = "summer" then some "Avoid liming during hot weather"
    else if season = "fall" then some "Best time for lime application"
    else some "Good time for lime application in mild climates"
  else none

/-- soilAnalysisService.js `getSeasonalAdvice`: looks the practice and the
season of the *current* date (`new Date().getMonth()`, modelled by the
`month` parameter) up in the table, with a fixed fallback string. -/
def getSeasonalAdvice (practice : String) (month : ℕ) : String :=
  (seasonalAdviceTable practice (getSeason month)).getD
    "Consult local agricultural extension for timing"

/-- Recommendation pushed when `moisture.percentage < 15`. -/
def criticalIrrigationRec (month : ℕ) : Recommendation :=
  { type := "Critical Irrigation", category := "water_management",
    priority := "critical", severity := "high",
    message := "Critically low soil moisture detected. Immediate irrigation required to prevent crop stress.",
    action := "Implement emergency irrigation within 24-48 hours",
    details := "Install drip irrigation systems for efficient water use. Consider mulching to retain moisture.",
    timeline := "Immediate (0-2 days)", cost := "Medium",
    impact := "High - Prevents crop failure",
    seasonality := getSeasonalAdvice "irrigation" month }

/-- Recommendation pushed when `moisture.percentage < 30`. -/
def irrigationManagementRec (month : ℕ) : Recommendation :=
  { type := "Irrigation Management", category := "water_management",
    priority := "high", severity := "medium",
    message := "Soil moisture is below optimal levels. Regular irrigation recommended.",
    action := "Increase irrigation frequency by 30-50%",
    details := "Monitor soil moisture daily. Consider installing moisture sensors for precise irrigation timing.",
    timeline := "Short-term (1-2 weeks)", cost := "Low",
    impact := "Medium - Improves crop yield",
    seasonality := getSeasonalAdvice "irrigation" month }

/-- Recommendation pushed when `moisture.percentage > 85`. -/
def drainageManagementRec (month : ℕ) : Recommendation :=
  { type := "Drainage Management", category := "water_management",
    priority := "high", severity := "medium",
    message := "Excessive soil moisture may lead to waterlogging and root rot.",
    action := "Improve drainage systems and reduce irrigation",
    details := "Install subsurface drainage tiles. Create raised beds for better drainage. Check for irrigation system leaks.",
    timeline := "Medium-term (2-4 weeks)", cost := "High",
    impact := "High - Prevents root diseases",
    seasonality := getSeasonalAdvice "drainage" month }

/-- Recommendation pushed when `indices.ndvi < 0.1`. -/
def urgentRevegetationRec (month : ℕ) : Recommendation :=
  { type := "Urgent Revegetation", category := "vegetation",
    priority := "critical", severity := "high",
    message := "Extremely poor vegetation cover. Risk of soil erosion and degradation.",
    action := "Implement immediate soil stabilization and planting program",
    details := "Use erosion control blankets, plant fast-growing cover crops, apply organic mulch.",
    timeline := "Immediate (0-1 week)", cost := "High",
    impact := "Critical - Prevents soil loss",
    seasonality := getSeasonalAdvice "planting" month }

/-- Recommendation pushed when `indices.ndvi < 0.3`. -/
def vegetationEnhancementRec (month : ℕ) : Recommendation :=
  { type := "Vegetation Enhancement", category := "vegetation",
    priority := "high", severity := "medium",
    message := "Low vegetation density detected. Consider crop rotation or replanting.",
    action := "Plant cover crops or implement crop diversification",
    details := "Select drought-resistant varieties. Consider nitrogen-fixing legumes for soil improvement.",
    timeline := "Short-term (2-4 weeks)", cost := "Medium",
    impact := "Medium - Improves soil health",
    seasonality := getSeasonalAdvice "planting" month }

/-- Recommendation pushed when `composition.clay > 60`. -/
def soilStructureRec (month : ℕ) : Recommendation :=
  { type := "Soil Structure Improvement", category := "soil_health",
    priority := "medium", severity := "low",
    message := "High clay content restricts water infiltration and root development.",
    action := "Add organic amendments to improve soil structure",
    details := "Apply 2-4 inches of compost annually. Use gypsum to improve clay aggregation. Avoid working wet clay soil.",
    timeline := "Long-term (6-12 months)", cost := "Medium",
    impact := "Medium - Improves soil workability",
    seasonality := getSeasonalAdvice "soil_amendment" month }

/-- Recommendation pushed when `composition.sand > 70`. -/
def waterRetentionRec (month : ℕ) : Recommendation :=
  { type := "Water Retention Enhancement", category := "soil_health",
    priority := "medium", severity := "medium",
    message := "Sandy soil has poor water and nutrient retention capacity.",
    action := "Increase organic matter content and implement frequent, light irrigation",
    details := "Add compost, biochar, or well-aged manure. Use slow-release fertilizers. Consider polymer soil conditioners.",
    timeline := "Medium-term (3-6 months)", cost := "Medium",
    impact := "High - Improves nutrient retention",
    seasonality := getSeasonalAdvice "soil_amendment" month }

/-- Recommendation pushed when `composition.organicMatter < 2`. -/
def organicMatterRec (month : ℕ) : Recommendation :=
  { type := "Organic Matter Enhancement", category := "fertility",
    priority := "high", severity := "medium",
    message := "Low organic matter reduces soil fertility and water retention.",
    action := "Implement comprehensive organic matter building program",
    details := "Apply 25-50 lbs compost per 1000 sq ft. Plant cover crops. Use crop residue management. Consider vermicomposting.",
    timeline := "Long-term (12-24 months)", cost := "Medium",
    impact := "High - Transforms soil health",
    seasonality := getSeasonalAdvice "organic_matter" month }

/-- Recommendation pushed when `composition.ph < 5.5`. -/
def severeAcidityRec (month : ℕ) : Recommendation :=
  { type := "Severe Acidity Correction", category := "ph_management",
    priority := "high", severity := "high",
    message := "Severely acidic soil limits nutrient availability and microbial activity.",
    action := "Apply agricultural lime with ongoing pH monitoring",
    details := "Apply 2-4 tons/acre of ground limestone. Test pH every 6 months. Consider pelletized lime for easier application.",
    timeline := "Medium-term (6-12 months)", cost := "Medium",
    impact := "High - Unlocks soil nutrients",
    seasonality := getSeasonalAdvice "liming" month }

/-- Recommendation pushed when `composition.ph < 6.2`. -/
def mildAcidityRec (month : ℕ) : Recommendation :=
  { type := "Mild Acidity Adjustment", category := "ph_management",
    priority := "medium", severity := "low",
    message := "Slightly acidic soil may benefit from pH adjustment for optimal crop growth.",
    action := "Apply moderate lime application",
    details := "Apply 1-2 tons/acre of agricultural lime. Monitor pH annually. Consider organic amendments like wood ash.",
    timeline := "Medium-term (6-12 months)", cost := "Low",
    impact := "Medium - Optimizes nutrient uptake",
    seasonality := getSeasonalAdvice "liming" month }

/-- Recommendation pushed when `composition.ph > 8.5`. -/
def alkalinityRec (month : ℕ) : Recommendation :=
  { type := "Alkalinity Reduction", category := "ph_management",
    priority := "high", severity := "high",
    message := "Highly alkaline soil restricts iron and zinc availability.",
    action := "Apply sulfur amendments and organic acidifiers",
    details := "Apply 10-20 lbs/1000 sq ft elemental sulfur. Use organic mulches. Consider iron sulfate for quick results.",
    timeline := "Long-term (12-18 months)", cost := "Medium",
    impact := "High - Prevents micronutrient deficiency",
    seasonality := getSeasonalAdvice "acidification" month }

/-- Recommendation pushed when `indices.ndvi > 0.7 && indices.ndmi < 0.3`. -/
def waterStressRec (month : ℕ) : Recommendation :=
  { type := "Water Stress Management", category := "precision_agriculture",
    priority := "medium", severity := "medium",
    message := "Good vegetation cover but moisture stress detected in plants.",
    action := "Implement precision irrigation targeting plant water needs",
    details := "Use NDMI monitoring for irrigation scheduling. Consider deficit irrigation strategies during non-critical growth stages.",
    timeline := "Short-term (1-2 weeks)", cost := "Low",
    impact := "Medium - Optimizes water use efficiency",
    seasonality := getSeasonalAdvice "precision_irrigation" month }

/-- Recommendation pushed by `addSoilHealthRecommendations` when
`composition.organicMatter < 3 && indices.ndvi < 0.5`. -/
def soilBiologyRec (month : ℕ) : Recommendation :=
  { type := "Soil Biology Enhancement", category := "soil_health",
    priority := "medium", severity := "medium",
    message := "Poor soil biology indicated by low organic matter and vegetation health.",
    action := "Implement biological soil enhancement program",
    details := "Apply mycorrhizal inoculants, beneficial bacteria, and compost tea. Minimize soil disturbance.",
    timeline := "Medium-term (3-6 months)", cost := "Medium",
    impact := "High - Builds soil ecosystem",
    seasonality := getSeasonalAdvice "soil_biology" month }

/-- Recommendation pushed by `addSoilHealthRecommendations` when
`composition.sand > 60 && indices.ndvi < 0.4`. -/
def erosionPreventionRec (month : ℕ) : Recommendation :=
  { type := "Erosion Prevention", category := "conservation",
    priority := "high", severity := "high",
    message := "Sandy soil with poor vegetation cover is susceptible to erosion.",
    action := "Implement immediate erosion control measures",
    details := "Install windbreaks, create contour farming, use cover crops, apply erosion control matting.",
    timeline := "Immediate (0-2 weeks)", cost := "Medium",
    impact := "Critical - Prevents soil loss",
    seasonality := getSeasonalAdvice "erosion_control" month }

/-- Recommendation pushed by `addCropRecommendations` when the suggestion
list is non-empty. -/
def cropSelectionRec (cropSuggestions : List String) (month : ℕ) : Recommendation :=
  { type := "Optimal Crop Selection", category := "crop_planning",
    priority := "low", severity := "low",
    message := "Current soil conditions are well-suited for specific crop types.",
    action := "Consider planting: " ++ String.intercalate ", " cropSuggestions,
    details := "These crops are well-adapted to your current soil conditions and will likely perform well with minimal amendments.",
    timeline := "Next planting season", cost := "Variable",
    impact := "Medium - Optimizes crop success",
    seasonality := getSeasonalAdvice "crop_selection" month }

/-- Recommendation pushed by `addSustainabilityRecommendations` when
`composition.organicMatter < 4` (its seasonality is a fixed string). -/
def carbonSequestrationRec : Recommendation :=
  { type := "Carbon Sequestration", category := "sustainability",
    priority := "low", severity := "low",
    message := "Opportunity to increase soil carbon storage and improve environmental sustainability.",
    action := "Implement carbon-building agricultural practices",
    details := "Use no-till farming, diverse crop rotations, cover cropping, and integrated livestock grazing.",
    timeline := "Long-term (2-5 years)", cost := "Low",
    impact := "High - Environmental and economic benefits",
    seasonality := "Year-round implementation" }

/-- Recommendation pushed by `addSustainabilityRecommendations` when
`indices.ndvi < 0.6`. -/
def biodiversityRec (month : ℕ) : Recommendation :=
  { type := "Biodiversity Enhancement", category := "sustainability",
    priority := "low", severity := "low",
    message := "Enhance on-farm biodiversity to improve ecosystem services.",
    action := "Create habitat corridors and diverse plantings",
    details := "Plant native hedgerows, establish pollinator strips, create wildlife corridors, use diverse crop rotations.",
    timeline := "Long-term (1-3 years)", cost := "Medium",
    impact := "Medium - Ecosystem benefits",
    seasonality := getSeasonalAdvice "biodiversity" month }

/-- soilAnalysisService.js `addSoilHealthRecommendations` (the pushes it
performs, in order). -/
def addSoilHealthRecommendations (composition : CompositionResult) (indices : Indices)
    (month : ℕ) : List Recommendation :=
  (if composition.organicMatter < 3 ∧ JsVal.lt indices.ndvi (.fin (1/2)) = true
   then [soilBiologyRec month] else []) ++
  (if JsVal.gt composition.sand (.fin 60) = true ∧ JsVal.lt indices.ndvi (.fin (2/5)) = true
   then [erosionPreventionRec month] else [])

/-- soilAnalysisService.js `addCropRecommendations`. -/
def addCropRecommendations (moisture : MoistureResult) (composition : CompositionResult)
    (month : ℕ) : List Recommendation :=
  let cropSuggestions : List String :=
    if JsVal.gt composition.clay (.fin 50) = true ∧
       JsVal.gt moisture.percentage (.fin 60) = true then
      ["rice", "cotton", "soybeans"]
    else if JsVal.gt composition.sand (.fin 60) = true ∧
            JsVal.lt moisture.percentage (.fin 40) = true then
      ["drought-resistant crops", "millet", "sorghum"]
    else if JsVal.ge composition.ph (.fin 6) = true ∧
            JsVal.le composition.ph (.fin (15/2)) = true then
      ["corn", "wheat", "vegetables"]
    else []
  if cropSuggestions ≠ [] then [cropSelectionRec cropSuggestions month] else []

/-- soilAnalysisService.js `addSustainabilityRecommendations`. -/
def addSustainabilityRecommendations (composition : CompositionResult) (indices : Indices)
    (month : ℕ) : List Recommendation :=
  (if composition.organicMatter < 4 then [carbonSequestrationRec] else []) ++
  (if JsVal.lt indices.ndvi (.fin (3/5)) = true then [biodiversityRec month] else [])

/-- soilAnalysisService.js `generateRecommendations`: the ordered sequence
of threshold rules, appending in source order.  `month` models the ambient
`new Date().getMonth()` read inside `getSeasonalAdvice`; the `location`
argument is otherwise unused by the rules. -/
def generateRecommendations (moisture : MoistureResult) (composition : CompositionResult)
    (indices : Indices) (month : ℕ) : List Recommendation :=
  (if JsVal.lt moisture.percentage (.fin 15) = true then [criticalIrrigationRec month]
   else if JsVal.lt moisture.percentage (.fin 30) = true then [irrigationManagementRec month]
   else if JsVal.gt moisture.percentage (.fin 85) = true then [drainageManagementRec month]
   else []) ++
  (if JsVal.lt indices.ndvi (.fin (1/10)) = true then [urgentRevegetationRec month]
   else if JsVal.lt indices.ndvi (.fin (3/10)) = true then [vegetationEnhancementRec month]
   else []) ++
  (if JsVal.gt composition.clay (.fin 60) = true then [soilStructureRec month] else []) ++
  (if JsVal.gt composition.sand (.fin 70) = true then [waterRetentionRec month] else []) ++
  (if composition.organicMatter < 2 then [organicMatterRec month] else []) ++
  (if JsVal.lt composition.ph (.fin (11/2)) = true then [severeAcidityRec month]
   else if JsVal.lt composition.ph (.fin (31/5)) = true then [mildAcidityRec month]
   else if JsVal.gt composition.ph (.fin (17/2)) = true then [alkalinityRec month]
   else []) ++
  (if JsVal.gt indices.ndvi (.fin (7/10)) = true ∧ JsVal.lt indices.ndmi (.fin (3/10)) = true
   then [waterStressRec month] else []) ++
  addSoilHealthRecommendations composition indices month ++
  addCropRecommendations moisture composition month ++
  addSustainabilityRecommendations composition indices month

/-- Result of `calculateSoilTemperature`.  Temperatures live in `ℝ` because
the seasonal term uses `Math.sin`. -/
structure TemperatureResult where
  celsius : ℝ
  fahrenheit : ℝ
  tempDescription : String
  seasonal : ℝ
  latitude : ℝ
  surface : ℝ

/-- `Math.round(x * 10) / 10` on a real temperature value. -/
noncomputable def roundR1 (x : ℝ) : ℝ := ((⌊x * 10 + 1/2⌋ : ℤ) : ℝ) / 10

/-- soilAnalysisService.js `getTemperatureDescription`. -/
noncomputable def getTemperatureDescription (t : ℝ) : String :=
  if t < 5 then "Very cold - limited biological activity"
  else if t < 15 then "Cool - slow plant growth"
  else if t < 25 then "Optimal - good for most crops"
  else if t < 35 then "Warm - may stress some plants"
  else "Hot - requires heat-tolerant varieties"

/-- soilAnalysisService.js `calculateSoilTemperature`: base 15 °C plus the
seasonal sine term on the capture month, a latitude term, and a SWIR
surface term. -/
noncomputable def calculateSoilTemperature (b : Bands) (lat : ℚ) (month : ℕ) :
    TemperatureResult :=
  let seasonalAdjustment : ℝ := 10 * Real.sin (((month : ℝ) - 3) * Real.pi / 6)
  let latitudeAdjustment : ℝ := (30 - |(lat : ℝ)|) * (3/10)
  let surfaceAdjustment : ℝ := ((b.B11 : ℝ) - (b.B12 : ℝ)) * 20
  let temperature : ℝ := 15 + seasonalAdjustment + latitudeAdjustment + surfaceAdjustment
  { celsius := roundR1 temperature,
    fahrenheit := roundR1 (temperature * 9 / 5 + 32),
    tempDescription := getTemperatureDescription temperature,
    seasonal := roundR1 seasonalAdjustment,
    latitude := roundR1 latitudeAdjustment,
    surface := roundR1 surfaceAdjustment }

/-- The record returned by `analyzeSoilData` (the `analysisDate` timestamp
string, pure ambient-clock formatting, is not modelled). -/
structure AnalysisResult where
  sceneUsed : String
  moisture : MoistureResult
  composition : CompositionResult
  ndvi : JsVal
  temperature : TemperatureResult
  recommendations : List Recommendation
  confidence : String
  indices : Indices

/-- soilAnalysisService.js `analyzeSoilData`: throws the no-data error on an
empty (or absent) scene list, otherwise runs the full pipeline on the best
scene.  `nowMs` models `new Date()` for confidence scoring, `month` the
ambient `new Date().getMonth()` for seasonal advice, and `monthOf` the
`Date#getMonth` of a capture timestamp (calendar arithmetic kept abstract),
used for the temperature estimate of the selected scene. -/
noncomputable def analyzeSoilData (scenes : List Scene) (lat : ℚ) (nowMs : ℤ)
    (month : ℕ) (monthOf : ℤ → ℕ) : Except String AnalysisResult :=
  if scenes = [] then .error "No satellite data available for analysis"
  else
    match selectBestScene scenes with
    | none => .error "No satellite data available for analysis"
    | some bestScene =>
        let indices := calculateVegetationIndices bestScene.bands
        let moisture := analyzeSoilMoisture bestScene.bands indices.ndmi lat
        let composition := analyzeSoilComposition bestScene.bands lat
        let temperature := calculateSoilTemperature bestScene.bands lat (monthOf bestScene.date)
        let recommendations := generateRecommendations moisture composition indices month
        let confidence := calculateConfidence bestScene scenes nowMs
        .ok
          { sceneUsed := bestScene.id,
            moisture := moisture,
            composition := composition,
            ndvi := indices.ndvi,
            temperature := temperature,
            recommendations := recommendations,
            confidence := confidence,
            indices := indices }

/-- Concrete all-zero band reading (a valid reading: every value is in the
unit interval, but every normalized-difference denominator degenerates). -/
def zeroBands : Bands := { B02 := 0, B03 := 0, B04 := 0, B08 := 0, B8A := 0, B11 := 0, B12 := 0 }

/-- Concrete band reading whose NDMI is exactly -0.5 while SWIR1 far
exceeds SWIR2. -/
def c7bands : Bands :=
  { B02 := 0, B03 := 0, B04 := 0, B08 := 3/10, B8A := 0, B11 := 9/10, B12 := 1/1000 }

/-- Concrete fresh scene with 8 percent cloud cover. -/
def cScene : Scene := { id := "scene-1", date := 0, cloudCover := 8, bands := zeroBands }

/-- Scene with cloud cover 10, earliest date. -/
def sceneA : Scene := { id := "a", date := 100, cloudCover := 10, bands := zeroBands }

/-- Scene with cloud cover 5, middle date. -/
def sceneB : Scene := { id := "b", date := 200, cloudCover := 5, bands := zeroBands }

/-- Scene with cloud cover 5, latest date. -/
def sceneC : Scene := { id := "c", date := 300, cloudCover := 5, bands := zeroBands }

/-- Trivial stand-in for `Date#getMonth`, used to instantiate the pipeline
at concrete inputs. -/
def monthOfConst : ℤ → ℕ := fun _ => 0

/-- Concrete band reading with every value one half (valid, non-degenerate). -/
def halfBands : Bands :=
  { B02 := 1/2, B03 := 1/2, B04 := 1/2, B08 := 1/2, B8A := 1/2, B11 := 1/2, B12 := 1/2 }

/-- Rational form of the four-segment NDMI mapping, for reasoning about
`moistureIndexRaw` on finite inputs. -/
def moistureBaseQ (n : ℚ) : ℚ :=
  if 2/5 < n then 70 + (n - 2/5) * 50
  else if 1/10 < n then 40 + (n - 1/10) * 100
  else if -(1/10) < n then 15 + (n + 1/10) * 125
  else 5 + Max.max 0 ((n + 3/10) * 50)

/-- Rational form of the SWIR refinement factor. -/
def swirFQ (b : Bands) : ℚ := 9/10 + (b.B11 / b.B12 - 1) * (1/10)

/-- Rational form of the latitude correction factor. -/
def latFQ (lat : ℚ) : ℚ :=
  if |lat| < 47/2 then 21/20 else if 60 < |lat| then 19/20 else 1

/-- Rational form of two-decimal rounding. -/
def rnd2 (q : ℚ) : ℚ := ((⌊q * 100 + 1/2⌋ : ℤ) : ℚ) / 100

/-- Rational value of the reported moisture percentage on the non-degenerate
path. -/
def moistureQ (b : Bands) (n lat : ℚ) : ℚ :=
  rnd2 (Max.max 5 (Min.min 95 (moistureBaseQ n * swirFQ b * latFQ lat)))

/-- Which of the four NDMI segments a value falls in. -/
def ndmiSegment (n : ℚ) : ℕ :=
  if 2/5 < n then 0 else if 1/10 < n then 1 else if -(1/10) < n then 2 else 3

/-- Concrete moisture input for the recommendation generator. -/
def m0 : MoistureResult :=
  { percentage := .fin 5, level := "very_low",
    description := "Very dry soil, irrigation strongly recommended", ndmiValue := .fin 0 }

/-- Concrete fertility record. -/
def f0 : Fertility := { score := .fin 60, level := "medium", description := "d" }

/-- Concrete composition input for the recommendation generator. -/
def comp0 : CompositionResult :=
  { clay := .fin 30, sand := .fin 40, silt := .fin 30, organicMatter := 3,
    ironOxide := .fin 0, ph := .fin 7, soilType := "Loam",
    typeDescription := "Ideal soil type with balanced properties", fertility := f0 }

/-- Concrete indices input for the recommendation generator. -/
def idx0 : Indices := { ndvi := .fin (1/2), evi := .fin 0, ndmi := .fin 0, bsi := .fin 0 }

namespace JsVal

@[simp] theorem add_fin (a b : ℚ) : add (fin a) (fin b) = fin (a + b) := rfl

@[simp] theorem neg_fin (a : ℚ) : neg (fin a) = fin (-a) := rfl

@[simp] theorem sub_fin (a b : ℚ) : sub (fin a) (fin b) = fin (a - b) := by
  simp [sub, sub_eq_add_neg]

@[simp] theorem mul_fin (a b : ℚ) : mul (fin a) (fin b) = fin (a * b) := rfl

@[simp] theorem min_fin (a b : ℚ) : min (fin a) (fin b) = fin (Min.min a b) := rfl

@[simp] theorem max_fin (a b : ℚ) : max (fin a) (fin b) = fin (Max.max a b) := rfl

@[simp] theorem lt_fin (a b : ℚ) : lt (fin a) (fin b) = decide (a < b) := rfl

@[simp] theorem le_fin (a b : ℚ) : le (fin a) (fin b) = decide (a ≤ b) := rfl

@[simp] theorem abs_fin (a : ℚ) : abs (fin a) = fin |a| := rfl

@[simp] theorem round_fin (a : ℚ) : round (fin a) = fin ⌊a + 1/2⌋ := rfl

@[simp] theorem gt_def (a b : JsVal) : gt a b = lt b a := rfl

@[simp] theorem ge_def (a b : JsVal) : ge a b = le b a := rfl

@[simp] theorem sub_posInf_fin (b : ℚ) : sub posInf (fin b) = posInf := rfl

@[simp] theorem add_fin_posInf (a : ℚ) : add (fin a) posInf = posInf := rfl

@[simp] theorem mul_posInf_fin (b : ℚ) (h : 0 < b) : mul posInf (fin b) = posInf := by
  simp [mul, h]

@[simp] theorem mul_fin_posInf (a : ℚ) (h : 0 < a) : mul (fin a) posInf = posInf := by
  simp [mul, h]

@[simp] theorem min_fin_posInf (a : ℚ) : min (fin a) posInf = fin a := rfl

@[simp] theorem sub_fin_nan (a : JsVal) : sub a nan = nan := by cases a <;> rfl

theorem inRangeB_fin (q lo hi : ℚ) :
    inRangeB (fin q) lo hi = true ↔ lo ≤ q ∧ q ≤ hi := by
  simp [inRangeB]

end JsVal

theorem jsDiv_ne_zero (a b : ℚ) (h : b ≠ 0) : jsDiv a b = .fin (a / b) := by
  simp [jsDiv, h]

theorem jsDiv_pos_zero (a : ℚ) (h : 0 < a) : jsDiv a 0 = .posInf := by
  simp [jsDiv, h]

theorem jsDiv_zero_zero : jsDiv 0 0 = .nan := by simp [jsDiv]

theorem bandsValid_iff (b : Bands) :
    bandsValid b = true ↔
      (0 ≤ b.B02 ∧ b.B02 ≤ 1) ∧ (0 ≤ b.B03 ∧ b.B03 ≤ 1) ∧
      (0 ≤ b.B04 ∧ b.B04 ≤ 1) ∧ (0 ≤ b.B08 ∧ b.B08 ≤ 1) ∧
      (0 ≤ b.B8A ∧ b.B8A ≤ 1) ∧ (0 ≤ b.B11 ∧ b.B11 ≤ 1) ∧
      (0 ≤ b.B12 ∧ b.B12 ≤ 1) := by
  simp [bandsValid, and_assoc]

/-- Invariant of the `reduce` inside `selectBestScene`: starting from a
scene `b`, the fold returns a scene drawn from `b` and the remaining list
whose cloud cover is minimal and whose capture date is maximal among the
candidates tied at that cloud cover. -/
theorem selectBest_go (l : List Scene) : ∀ b : Scene,
    ∃ r, List.foldl selectBestStep (some b) l = some r ∧ (r = b ∨ r ∈ l) ∧
      r.cloudCover ≤ b.cloudCover ∧ (∀ t ∈ l, r.cloudCover ≤ t.cloudCover) ∧
      (b.cloudCover = r.cloudCover → b.date ≤ r.date) ∧
      (∀ t ∈ l, t.cloudCover = r.cloudCover → t.date ≤ r.date) := by
  induction l with
  | nil =>
      intro b
      exact ⟨b, rfl, Or.inl rfl, le_rfl, by simp, fun _ => le_rfl, by simp⟩
  | cons c t ih =>
      intro b
      rw [List.foldl_cons]
      by_cases h1 : c.cloudCover < b.cloudCover
      · obtain ⟨r, hr, hmem, hcc, hall, hdate, halldate⟩ := ih c
        rw [show selectBestStep (some b) c = some c from by simp [selectBestStep, h1]]
        refine ⟨r, hr, ?_, le_trans hcc (le_of_lt h1), ?_, ?_, ?_⟩
        · rcases hmem with h | h
          · exact Or.inr (by simp [h])
          · exact Or.inr (List.mem_cons_of_mem _ h)
        · intro s hs
          rcases List.mem_cons.mp hs with rfl | hs
          · exact hcc
          · exact hall s hs
        · intro hbc
          exact absurd (lt_of_le_of_lt hcc h1) (by rw [hbc]; exact lt_irrefl _)
        · intro s hs hsr
          rcases List.mem_cons.mp hs with rfl | hs
          · exact hdate hsr
          · exact halldate s hs hsr
      · by_cases h2 : c.cloudCover = b.cloudCover ∧ b.date < c.date
        · obtain ⟨r, hr, hmem, hcc, hall, hdate, halldate⟩ := ih c
          rw [show selectBestStep (some b) c = some c from by simp [selectBestStep, h1, h2]]
          refine ⟨r, hr, ?_, by rw [← h2.1]; exact hcc, ?_, ?_, ?_⟩
          · rcases hmem with h | h
            · exact Or.inr (by simp [h])
            · exact Or.inr (List.mem_cons_of_mem _ h)
          · intro s hs
            rcases List.mem_cons.mp hs with rfl | hs
            · exact hcc
            · exact hall s hs
          · intro hbc
            exact le_trans (le_of_lt h2.2) (hdate (h2.1.trans hbc))
          · intro s hs hsr
            rcases List.mem_cons.mp hs with rfl | hs
            · exact hdate hsr
            · exact halldate s hs hsr
        · obtain ⟨r, hr, hmem, hcc, hall, hdate, halldate⟩ := ih b
          rw [show selectBestStep (some b) c = some b from by simp [selectBestStep, h1, h2]]
          have hbc : b.cloudCover ≤ c.cloudCover := le_of_not_lt h1
          refine ⟨r, hr, ?_, hcc, ?_, hdate, ?_⟩
          · rcases hmem with h | h
            · exact Or.inl h
            · exact Or.inr (List.mem_cons_of_mem _ h)
          · intro s hs
            rcases List.mem_cons.mp hs with rfl | hs
            · exact le_trans hcc hbc
            · exact hall s hs
          · intro s hs hsr
            rcases List.mem_cons.mp hs with rfl | hs
            · have hceq : s.cloudCover = b.cloudCover :=
                le_antisymm (by rw [hsr]; exact hcc) hbc
              have hbr : b.cloudCover = r.cloudCover := by rw [← hceq, hsr]
              have : ¬ b.date < s.date := fun hlt => h2 ⟨hceq, hlt⟩
              exact le_trans (le_of_not_lt this) (hdate hbr)
            · exact halldate s hs hsr

/-- The scene selector on a non-empty list: returns a member with minimal
cloud cover and, among ties, maximal capture date. -/
theorem selectBestScene_spec (scenes : List Scene) (h : scenes ≠ []) :
    ∃ s, selectBestScene scenes = some s ∧ s ∈ scenes ∧
      (∀ t ∈ scenes, s.cloudCover ≤ t.cloudCover) ∧
      (∀ t ∈ scenes, t.cloudCover = s.cloudCover → t.date ≤ s.date) := by
  match scenes with
  | [] => exact absurd rfl h
  | c :: t =>
      obtain ⟨r, hr, hmem, hcc, hall, hdate, halldate⟩ := selectBest_go t c
      refine ⟨r, hr, ?_, ?_, ?_⟩
      · rcases hmem with h | h
        · exact by simp [h]
        · exact List.mem_cons_of_mem _ h
      · intro s hs
        rcases List.mem_cons.mp hs with rfl | hs
        · exact hcc
        · exact hall s hs
      · intro s hs hsr
        rcases List.mem_cons.mp hs with rfl | hs
        · exact hdate hsr
        · exact halldate s hs hsr

/-- C3: for every non-empty list of scenes, `selectBestScene` returns a
scene with minimum cloud cover, and among scenes tied at that minimum it
returns one with the most recent capture date; in particular, on cloud
covers [10, 5, 5] with increasing dates it returns the later-dated
cloud-cover-5 scene. -/
theorem selectBestScene_min_cloud_then_latest :
    (∀ scenes : List Scene, scenes ≠ [] →
      ∃ s, selectBestScene scenes = some s ∧
        (∀ t ∈ scenes, s.cloudCover ≤ t.cloudCover) ∧
        (∀ t ∈ scenes, t.cloudCover = s.cloudCover → t.date ≤ s.date)) ∧
    selectBestScene [sceneA, sceneB, sceneC] = some sceneC := by
  constructor
  · intro scenes h
    obtain ⟨s, hs, -, hall, halldate⟩ := selectBestScene_spec scenes h
    exact ⟨s, hs, hall, halldate⟩
  · decide

/-- Witness for C3 at the concrete [10, 5, 5] scene list. -/
theorem selectBestScene_min_cloud_then_latest_witness :
    ([sceneA, sceneB, sceneC] : List Scene) ≠ [] ∧
    (∃ s, selectBestScene [sceneA, sceneB, sceneC] = some s ∧
      (∀ t ∈ [sceneA, sceneB, sceneC], s.cloudCover ≤ t.cloudCover) ∧
      (∀ t ∈ [sceneA, sceneB, sceneC], t.cloudCover = s.cloudCover → t.date ≤ s.date)) :=
  ⟨by decide, selectBestScene_min_cloud_then_latest.1 _ (by decide)⟩

/-- C9: the scene selector never synthesizes a new scene (its result is a
member of the input list), and on the empty list it returns null rather
than raising. -/
theorem selectBestScene_member_or_none :
    selectBestScene [] = none ∧
    (∀ (scenes : List Scene) (s : Scene), selectBestScene scenes = some s → s ∈ scenes) := by
  refine ⟨rfl, ?_⟩
  intro scenes s hs
  match scenes with
  | [] => simp [selectBestScene] at hs
  | c :: t =>
      obtain ⟨r, hr, hmem, -, -⟩ := selectBestScene_spec (c :: t) (by simp)
      rw [hr] at hs
      cases hs
      exact hmem

/-- Witness for C9: the selected scene of a concrete list is one of its
elements. -/
theorem selectBestScene_member_witness :
    selectBestScene [sceneA, sceneB, sceneC] = some sceneC ∧
    sceneC ∈ [sceneA, sceneB, sceneC] :=
  ⟨by decide, selectBestScene_member_or_none.2 _ _ (by decide)⟩

/-- C4: the analysis entry point fails with the no-data error exactly on an
empty scene list, and on every non-empty list it produces a full analysis
result (no partial output, no error). -/
theorem analyzeSoilData_no_data_error :
    (∀ (lat : ℚ) (nowMs : ℤ) (month : ℕ) (monthOf : ℤ → ℕ),
      analyzeSoilData [] lat nowMs month monthOf =
        .error "No satellite data available for analysis") ∧
    (∀ (scenes : List Scene) (lat : ℚ) (nowMs : ℤ) (month : ℕ) (monthOf : ℤ → ℕ),
      scenes ≠ [] → ∃ r, analyzeSoilData scenes lat nowMs month monthOf = .ok r) := by
  constructor
  · intro lat nowMs month monthOf
    simp [analyzeSoilData]
  · intro scenes lat nowMs month monthOf h
    obtain ⟨s, hs, -, -, -⟩ := selectBestScene_spec scenes h
    unfold analyzeSoilData
    rw [if_neg h, hs]
    exact ⟨_, rfl⟩

/-- Witness for C4 at a concrete single-scene list. -/
theorem analyzeSoilData_no_data_error_witness :
    ([cScene] : List Scene) ≠ [] ∧
    ∃ r, analyzeSoilData [cScene] 0 0 0 monthOfConst = .ok r :=
  ⟨by decide, analyzeSoilData_no_data_error.2 [cScene] 0 0 0 monthOfConst (by decide)⟩

/-- `safeCalculation` always lands in the index range. -/
theorem safeCalculation_range (v : JsVal) :
    -1 ≤ safeCalculation v ∧ safeCalculation v ≤ 1 := by
  cases v with
  | fin q =>
      exact ⟨le_max_left _ _, max_le (by norm_num) (min_le_left _ _)⟩
  | posInf => exact ⟨by norm_num [safeCalculation], by norm_num [safeCalculation]⟩
  | negInf => exact ⟨by norm_num [safeCalculation], by norm_num [safeCalculation]⟩
  | nan => exact ⟨by norm_num [safeCalculation], by norm_num [safeCalculation]⟩

/-- A zero denominator makes `safeCalculation` of the quotient evaluate
to 0. -/
theorem safeCalculation_div_zero (a : ℚ) : safeCalculation (jsDiv a 0) = 0 := by
  unfold jsDiv
  split_ifs <;> simp_all [safeCalculation]

/-- A zero denominator also makes `safeCalculation` of a positive multiple
of the quotient evaluate to 0 (the EVI case). -/
theorem safeCalculation_mul_div_zero (c a : ℚ) (hc : 0 < c) :
    safeCalculation (JsVal.mul (.fin c) (jsDiv a 0)) = 0 := by
  unfold jsDiv
  split_ifs <;> simp_all [safeCalculation, JsVal.mul, hc]

/-- C1 (amended): for every band reading with all values in the unit
interval, the utility calculator `calculateIndices` succeeds, each of its
five indices lies in the index range, and whenever a normalized-difference
denominator is exactly zero the corresponding index is 0 (the NaN/Infinity
screening of `safeCalculation`). -/
theorem calculateIndices_clamped_and_degenerate_zero (b : Bands)
    (hv : bandsValid b = true) :
    ∃ u, calculateIndices b = .ok u ∧
      (-1 ≤ u.ndvi ∧ u.ndvi ≤ 1) ∧ (-1 ≤ u.evi ∧ u.evi ≤ 1) ∧
      (-1 ≤ u.ndmi ∧ u.ndmi ≤ 1) ∧ (-1 ≤ u.bsi ∧ u.bsi ≤ 1) ∧
      (-1 ≤ u.savi ∧ u.savi ≤ 1) ∧
      (b.B08 + b.B04 = 0 → u.ndvi = 0) ∧
      (b.B08 + 6 * b.B04 - (15/2) * b.B02 + 1 = 0 → u.evi = 0) ∧
      (b.B08 + b.B11 = 0 → u.ndmi = 0) ∧
      ((b.B11 + b.B04) + (b.B08 + b.B02) = 0 → u.bsi = 0) := by
  rw [calculateIndices, if_pos hv]
  refine ⟨_, rfl, safeCalculation_range _, safeCalculation_range _, safeCalculation_range _,
    safeCalculation_range _, safeCalculation_range _, ?_, ?_, ?_, ?_⟩
  · intro h
    simp only [h]
    exact safeCalculation_div_zero _
  · intro h
    simp only [h]
    exact safeCalculation_mul_div_zero (5/2) _ (by norm_num)
  · intro h
    simp only [h]
    exact safeCalculation_div_zero _
  · intro h
    simp only [h]
    exact safeCalculation_div_zero _

/-- Counterexample to C1 as stated: the all-zero reading is a valid band
reading, yet the service-side `calculateVegetationIndices` yields NaN for
NDVI (the 0/0 case): the index neither lies in the unit-difference range
nor equals 0 — NaN propagates on this path. -/
theorem calculateVegetationIndices_nan_counterexample :
    bandsValid zeroBands = true ∧
    (calculateVegetationIndices zeroBands).ndvi = JsVal.nan ∧
    JsVal.inRangeB (calculateVegetationIndices zeroBands).ndvi (-1) 1 = false ∧
    (calculateVegetationIndices zeroBands).ndvi ≠ JsVal.fin 0 := by
  norm_num [bandsValid, zeroBands, calculateVegetationIndices, clampIndex, jsDiv,
    JsVal.min, JsVal.max, JsVal.inRangeB]
  exact fun h => JsVal.noConfusion h

/-- Witness for C1 (amended) at the all-zero valid reading. -/
theorem calculateIndices_clamped_witness :
    bandsValid zeroBands = true ∧ ∃ u, calculateIndices zeroBands = .ok u := by
  have hv : bandsValid zeroBands = true := by norm_num [bandsValid, zeroBands]
  refine ⟨hv, ?_⟩
  obtain ⟨u, hu, -⟩ := calculateIndices_clamped_and_degenerate_zero zeroBands hv
  exact ⟨u, hu⟩

/-- C10: the utility index calculator throws exactly when some band value
lies outside the unit interval, and succeeds (producing all five indices)
whenever the reading is valid. -/
theorem calculateIndices_error_iff (b : Bands) :
    (calculateIndices b = .error "Invalid spectral band values" ↔
      ¬((0 ≤ b.B02 ∧ b.B02 ≤ 1) ∧ (0 ≤ b.B03 ∧ b.B03 ≤ 1) ∧
        (0 ≤ b.B04 ∧ b.B04 ≤ 1) ∧ (0 ≤ b.B08 ∧ b.B08 ≤ 1) ∧
        (0 ≤ b.B8A ∧ b.B8A ≤ 1) ∧ (0 ≤ b.B11 ∧ b.B11 ≤ 1) ∧
        (0 ≤ b.B12 ∧ b.B12 ≤ 1))) ∧
    (bandsValid b = true → ∃ u, calculateIndices b = .ok u) := by
  by_cases hv : bandsValid b = true
  · refine ⟨⟨fun he => ?_, fun hnc => absurd ((bandsValid_iff b).mp hv) hnc⟩, fun _ => ?_⟩
    · rw [calculateIndices, if_pos hv] at he
      exact Except.noConfusion he
    · rw [calculateIndices, if_pos hv]
      exact ⟨_, rfl⟩
  · have hnc : ¬((0 ≤ b.B02 ∧ b.B02 ≤ 1) ∧ (0 ≤ b.B03 ∧ b.B03 ≤ 1) ∧
        (0 ≤ b.B04 ∧ b.B04 ≤ 1) ∧ (0 ≤ b.B08 ∧ b.B08 ≤ 1) ∧
        (0 ≤ b.B8A ∧ b.B8A ≤ 1) ∧ (0 ≤ b.B11 ∧ b.B11 ≤ 1) ∧
        (0 ≤ b.B12 ∧ b.B12 ≤ 1)) := fun hc => hv ((bandsValid_iff b).mpr hc)
    refine ⟨⟨fun _ => hnc, fun _ => ?_⟩, fun hv2 => absurd hv2 hv⟩
    rw [calculateIndices, if_neg hv]

/-- Witness for C10 at a concrete valid reading. -/
theorem calculateIndices_error_iff_witness :
    bandsValid c7bands = true ∧ ∃ u, calculateIndices c7bands = .ok u := by
  have hv : bandsValid c7bands = true := by norm_num [bandsValid, c7bands]
  exact ⟨hv, (calculateIndices_error_iff c7bands).2 hv⟩

theorem moistureIndexRaw_fin (n : ℚ) :
    moistureIndexRaw (.fin n) = .fin (moistureBaseQ n) := by
  unfold moistureIndexRaw moistureBaseQ
  simp only [JsVal.gt_def, JsVal.lt_fin, decide_eq_true_eq, JsVal.sub_fin, JsVal.mul_fin,
    JsVal.add_fin, JsVal.max_fin]
  split_ifs <;> rfl

theorem moistureBaseQ_ge5 (n : ℚ) : 5 ≤ moistureBaseQ n := by
  unfold moistureBaseQ
  split_ifs with h1 h2 h3
  · linarith
  · linarith
  · linarith
  · have := le_max_left (0 : ℚ) ((n + 3/10) * 50)
    linarith

theorem moistureBaseQ_mono {n m : ℚ} (h : n ≤ m) : moistureBaseQ n ≤ moistureBaseQ m := by
  unfold moistureBaseQ
  split_ifs with h1 h2 h3 h4 h5 h6 h7 h8 h9 <;>
    first
      | linarith
      | exact add_le_add_left (max_le_max le_rfl (by linarith)) 5
      | (have hb : Max.max (0 : ℚ) ((n + 3/10) * 50) ≤ 10 :=
           max_le (by norm_num) (by linarith)
         linarith)

theorem swirFQ_pos (b : Bands) (h11 : 0 ≤ b.B11) (h12 : 0 < b.B12) : 0 < swirFQ b := by
  have hr : 0 ≤ b.B11 / b.B12 := div_nonneg h11 (le_of_lt h12)
  unfold swirFQ
  linarith

theorem latFQ_pos (lat : ℚ) : 0 < latFQ lat := by
  unfold latFQ
  split_ifs <;> norm_num

theorem latFQ_le (lat : ℚ) : latFQ lat ≤ 21/20 := by
  unfold latFQ
  split_ifs <;> norm_num

theorem rnd2_mono {p q : ℚ} (h : p ≤ q) : rnd2 p ≤ rnd2 q := by
  unfold rnd2
  have hf : ⌊p * 100 + 1/2⌋ ≤ ⌊q * 100 + 1/2⌋ :=
    Int.floor_le_floor (by linarith)
  have hf2 : ((⌊p * 100 + 1/2⌋ : ℤ) : ℚ) ≤ ((⌊q * 100 + 1/2⌋ : ℤ) : ℚ) := by exact_mod_cast hf
  linarith

theorem rnd2_range {q : ℚ} (h5 : 5 ≤ q) (h95 : q ≤ 95) : 5 ≤ rnd2 q ∧ rnd2 q ≤ 95 := by
  have hlo : (500 : ℤ) ≤ ⌊q * 100 + 1/2⌋ := Int.le_floor.mpr (by push_cast; linarith)
  have hhi : ⌊q * 100 + 1/2⌋ < (9501 : ℤ) := Int.floor_lt.mpr (by push_cast; linarith)
  have hlo2 : (500 : ℚ) ≤ ((⌊q * 100 + 1/2⌋ : ℤ) : ℚ) := by exact_mod_cast hlo
  have hhi2 : ((⌊q * 100 + 1/2⌋ : ℤ) : ℚ) ≤ 9500 := by
    exact_mod_cast Int.lt_add_one_iff.mp hhi
  constructor
  · rw [rnd2, le_div_iff₀ (by norm_num : (0:ℚ) < 100)]
    linarith
  · rw [rnd2, div_le_iff₀ (by norm_num : (0:ℚ) < 100)]
    linarith

theorem moistureClamped_fin (b : Bands) (n lat : ℚ) (h : b.B12 ≠ 0) :
    moistureClamped b (.fin n) lat =
      .fin (Max.max 5 (Min.min 95 (moistureBaseQ n * swirFQ b * latFQ lat))) := by
  unfold moistureClamped moistureAfterLat moistureAfterSwir swirRatio
  rw [jsDiv_ne_zero _ _ h, moistureIndexRaw_fin]
  unfold latFQ swirFQ
  split_ifs <;> simp [mul_one]

theorem analyzeSoilMoisture_percentage_fin (b : Bands) (n lat : ℚ) (h : b.B12 ≠ 0) :
    (analyzeSoilMoisture b (.fin n) lat).percentage = .fin (moistureQ b n lat) := by
  show round2 (moistureClamped b (.fin n) lat) = _
  rw [moistureClamped_fin b n lat h]
  rfl

theorem analyzeSoilMoisture_level_fin (b : Bands) (n lat : ℚ) (h : b.B12 ≠ 0) :
    (analyzeSoilMoisture b (.fin n) lat).level =
      getMoistureLevel
        (.fin (Max.max 5 (Min.min 95 (moistureBaseQ n * swirFQ b * latFQ lat)))) := by
  show getMoistureLevel (moistureClamped b (.fin n) lat) = _
  rw [moistureClamped_fin b n lat h]

theorem moistureClamped_b12_zero (b : Bands) (n lat : ℚ) (h12 : b.B12 = 0)
    (h11 : 0 < b.B11) : moistureClamped b (.fin n) lat = .fin 95 := by
  have hbase : 0 < moistureBaseQ n := lt_of_lt_of_le (by norm_num) (moistureBaseQ_ge5 n)
  unfold moistureClamped moistureAfterLat moistureAfterSwir swirRatio
  rw [h12, jsDiv_pos_zero _ h11, moistureIndexRaw_fin]
  split_ifs <;>
    norm_num [JsVal.mul, JsVal.min, JsVal.max, JsVal.sub, JsVal.add, JsVal.neg, hbase]

/-- C2 (amended): for every band reading with values in the unit interval
whose SWIR bands are not both zero, and every location, the reported
moisture percentage is a finite value in [5, 95], and within each NDMI
segment the percentage is monotonically non-decreasing in NDMI with the
other bands and the location held fixed.  (When B11 = B12 = 0 the SWIR
ratio is NaN and the percentage is NaN — see the counterexample.) -/
theorem analyzeSoilMoisture_range_and_mono (b : Bands) (lat : ℚ)
    (hv : bandsValid b = true) (hz : ¬(b.B11 = 0 ∧ b.B12 = 0)) :
    (∀ n : ℚ, JsVal.inRangeB (analyzeSoilMoisture b (.fin n) lat).percentage 5 95 = true) ∧
    (∀ n m : ℚ, n ≤ m → ndmiSegment n = ndmiSegment m →
      JsVal.finLe (analyzeSoilMoisture b (.fin n) lat).percentage
        (analyzeSoilMoisture b (.fin m) lat).percentage) := by
  have hB11 : 0 ≤ b.B11 := ((bandsValid_iff b).mp hv).2.2.2.2.2.1.1
  have hB12 : 0 ≤ b.B12 := ((bandsValid_iff b).mp hv).2.2.2.2.2.2.1
  by_cases h12 : b.B12 = 0
  · have h11 : 0 < b.B11 :=
      lt_of_le_of_ne hB11 (fun hh => hz ⟨hh.symm, h12⟩)
    have hp : ∀ n : ℚ, (analyzeSoilMoisture b (.fin n) lat).percentage = .fin 95 := by
      intro n
      show round2 (moistureClamped b (.fin n) lat) = _
      rw [moistureClamped_b12_zero b n lat h12 h11]
      norm_num [round2]
    constructor
    · intro n
      rw [hp n]
      exact (JsVal.inRangeB_fin _ _ _).mpr (by norm_num)
    · intro n m hnm hseg
      exact ⟨95, 95, hp n, hp m, le_rfl⟩
  · have h12p : 0 < b.B12 := lt_of_le_of_ne hB12 (Ne.symm h12)
    have hsw := swirFQ_pos b hB11 h12p
    have hlat := latFQ_pos lat
    constructor
    · intro n
      rw [analyzeSoilMoisture_percentage_fin b n lat h12]
      have hy5 : (5 : ℚ) ≤ Max.max 5 (Min.min 95 (moistureBaseQ n * swirFQ b * latFQ lat)) :=
        le_max_left _ _
      have hy95 : Max.max 5 (Min.min 95 (moistureBaseQ n * swirFQ b * latFQ lat)) ≤ 95 :=
        max_le (by norm_num) (min_le_left _ _)
      obtain ⟨hq5, hq95⟩ := rnd2_range hy5 hy95
      exact (JsVal.inRangeB_fin _ _ _).mpr ⟨hq5, hq95⟩
    · intro n m hnm hseg
      rw [analyzeSoilMoisture_percentage_fin b n lat h12,
        analyzeSoilMoisture_percentage_fin b m lat h12]
      refine ⟨_, _, rfl, rfl, ?_⟩
      apply rnd2_mono
      refine max_le_max le_rfl (min_le_min le_rfl ?_)
      rw [mul_assoc, mul_assoc]
      exact mul_le_mul_of_nonneg_right (moistureBaseQ_mono hnm)
        (le_of_lt (mul_pos hsw hlat))

/-- Counterexample to C2 as stated: the all-zero reading is valid (every
band value in the unit interval), yet the moisture percentage is NaN (the
SWIR ratio 0/0), which is not a value in [5, 95]. -/
theorem analyzeSoilMoisture_nan_counterexample :
    bandsValid zeroBands = true ∧
    JsVal.inRangeB (analyzeSoilMoisture zeroBands (.fin 0) 0).percentage 5 95 = false := by
  constructor
  · norm_num [bandsValid, zeroBands]
  · norm_num [analyzeSoilMoisture, moistureClamped, moistureAfterLat, moistureAfterSwir,
      swirRatio, moistureIndexRaw, jsDiv, zeroBands, round2, JsVal.inRangeB, JsVal.mul,
      JsVal.min, JsVal.max, JsVal.add, JsVal.sub, JsVal.neg, JsVal.gt, JsVal.lt]

/-- Witness for C2 (amended) at a concrete valid, non-degenerate reading. -/
theorem analyzeSoilMoisture_range_witness :
    bandsValid halfBands = true ∧ ¬(halfBands.B11 = 0 ∧ halfBands.B12 = 0) ∧
    JsVal.inRangeB (analyzeSoilMoisture halfBands (.fin 0) 0).percentage 5 95 = true := by
  have hv : bandsValid halfBands = true := by norm_num [bandsValid, halfBands]
  have hz : ¬(halfBands.B11 = 0 ∧ halfBands.B12 = 0) := by norm_num [halfBands]
  exact ⟨hv, hz, (analyzeSoilMoisture_range_and_mono halfBands 0 hv hz).1 0⟩

theorem moistureBaseQ_at_neg_half : moistureBaseQ (-(1/2)) = 5 := by
  unfold moistureBaseQ
  have hmax : Max.max (0 : ℚ) ((-(1/2) + 3/10) * 50) = 0 := max_eq_left (by norm_num)
  norm_num [hmax]

/-- C7 (amended): for every valid band reading with B12 nonzero and
B11 at most B12 (SWIR ratio at most one, so the refinement cannot lift the
floor), at NDMI exactly -0.5 the moisture estimator reports percentage 5
with level very low, and the recommendation generator always emits a
Critical Irrigation recommendation with critical priority. -/
theorem analyzeSoilMoisture_floor_critical (b : Bands) (lat : ℚ)
    (hv : bandsValid b = true) (h12 : b.B12 ≠ 0) (hle : b.B11 ≤ b.B12) :
    (analyzeSoilMoisture b (.fin (-(1/2))) lat).percentage = .fin 5 ∧
    (analyzeSoilMoisture b (.fin (-(1/2))) lat).level = "very_low" ∧
    (∀ (composition : CompositionResult) (indices : Indices) (month : ℕ),
      ∃ r ∈ generateRecommendations (analyzeSoilMoisture b (.fin (-(1/2))) lat)
          composition indices month,
        r.type = "Critical Irrigation" ∧ r.priority = "critical") := by
  have hB11 : 0 ≤ b.B11 := ((bandsValid_iff b).mp hv).2.2.2.2.2.1.1
  have hB12 : 0 ≤ b.B12 := ((bandsValid_iff b).mp hv).2.2.2.2.2.2.1
  have h12p : 0 < b.B12 := lt_of_le_of_ne hB12 (Ne.symm h12)
  have hr1 : b.B11 / b.B12 ≤ 1 := (div_le_one h12p).mpr hle
  have hr0 : 0 ≤ b.B11 / b.B12 := div_nonneg hB11 (le_of_lt h12p)
  have hswub : swirFQ b ≤ 9/10 := by unfold swirFQ; linarith
  have hswpos : 0 < swirFQ b := swirFQ_pos b hB11 h12p
  have hlatpos : 0 < latFQ lat := latFQ_pos lat
  have hfac : swirFQ b * latFQ lat ≤ (9/10) * (21/20) :=
    mul_le_mul hswub (latFQ_le lat) (le_of_lt hlatpos) (by norm_num)
  have hprod : moistureBaseQ (-(1/2)) * swirFQ b * latFQ lat ≤ 5 := by
    rw [moistureBaseQ_at_neg_half, mul_assoc]
    linarith
  have hclamp :
      Max.max 5 (Min.min 95 (moistureBaseQ (-(1/2)) * swirFQ b * latFQ lat)) = 5 := by
    rw [min_eq_right (le_trans hprod (by norm_num))]
    exact max_eq_left hprod
  have hperc : (analyzeSoilMoisture b (.fin (-(1/2))) lat).percentage = .fin 5 := by
    rw [analyzeSoilMoisture_percentage_fin b (-(1/2)) lat h12]
    unfold moistureQ
    rw [hclamp]
    have hfl : ⌊(5 : ℚ) * 100 + 1/2⌋ = 500 := by
      apply Int.floor_eq_iff.mpr
      norm_num
    norm_num [rnd2, hfl]
  have hlevel : (analyzeSoilMoisture b (.fin (-(1/2))) lat).level = "very_low" := by
    rw [analyzeSoilMoisture_level_fin b (-(1/2)) lat h12, hclamp]
    norm_num [getMoistureLevel]
  refine ⟨hperc, hlevel, ?_⟩
  intro composition indices month
  refine ⟨criticalIrrigationRec month, ?_, rfl, rfl⟩
  have hcond :
      JsVal.lt (analyzeSoilMoisture b (.fin (-(1/2))) lat).percentage (.fin 15) = true := by
    rw [hperc]
    norm_num
  unfold generateRecommendations
  rw [if_pos hcond]
  simp [List.mem_append]

/-- Counterexample to C7 as stated: a valid band reading whose NDMI is
exactly -0.5 (B08 = 0.3, B11 = 0.9) but whose SWIR ratio is 900: the
refinement factor scales the floor value of 5 up to the opposite clamp
bound, so the percentage is 95 and the level is very high, not the floor. -/
theorem analyzeSoilMoisture_floor_counterexample :
    bandsValid c7bands = true ∧
    (calculateVegetationIndices c7bands).ndmi = .fin (-(1/2)) ∧
    (analyzeSoilMoisture c7bands ((calculateVegetationIndices c7bands).ndmi)
      (367/10)).percentage ≠ .fin 5 ∧
    (analyzeSoilMoisture c7bands ((calculateVegetationIndices c7bands).ndmi)
      (367/10)).level ≠ "very_low" := by
  have hv : bandsValid c7bands = true := by norm_num [bandsValid, c7bands]
  have hndmi : (calculateVegetationIndices c7bands).ndmi = .fin (-(1/2)) := by
    norm_num [calculateVegetationIndices, clampIndex, jsDiv, c7bands, JsVal.min, JsVal.max,
      min_eq_right, max_eq_right]
  have h12 : c7bands.B12 ≠ 0 := by norm_num [c7bands]
  have hclamp :
      Max.max 5 (Min.min 95 (moistureBaseQ (-(1/2)) * swirFQ c7bands * latFQ (367/10))) =
        95 := by
    have hsw : swirFQ c7bands = 908/10 := by norm_num [swirFQ, c7bands]
    have hlat : latFQ (367/10) = 1 := by
      unfold latFQ
      norm_num [abs_of_nonneg]
    rw [moistureBaseQ_at_neg_half, hsw, hlat]
    norm_num [min_eq_left, max_eq_right]
  have hperc : (analyzeSoilMoisture c7bands
      ((calculateVegetationIndices c7bands).ndmi) (367/10)).percentage = .fin 95 := by
    rw [hndmi, analyzeSoilMoisture_percentage_fin c7bands (-(1/2)) (367/10) h12]
    unfold moistureQ
    rw [hclamp]
    have hfl : ⌊(95 : ℚ) * 100 + 1/2⌋ = 9500 := by
      apply Int.floor_eq_iff.mpr
      norm_num
    norm_num [rnd2, hfl]
  have hlev : (analyzeSoilMoisture c7bands
      ((calculateVegetationIndices c7bands).ndmi) (367/10)).level = "very_high" := by
    rw [hndmi, analyzeSoilMoisture_level_fin c7bands (-(1/2)) (367/10) h12, hclamp]
    norm_num [getMoistureLevel]
  refine ⟨hv, hndmi, ?_, ?_⟩
  · rw [hperc]
    intro h
    cases h
  · rw [hlev]
    decide

/-- Witness for C7 (amended) at a concrete reading with B11 equal to B12. -/
theorem analyzeSoilMoisture_floor_critical_witness :
    bandsValid halfBands = true ∧ halfBands.B12 ≠ 0 ∧ halfBands.B11 ≤ halfBands.B12 ∧
    (analyzeSoilMoisture halfBands (.fin (-(1/2))) 0).percentage = .fin 5 := by
  have hv : bandsValid halfBands = true := by norm_num [bandsValid, halfBands]
  have h12 : halfBands.B12 ≠ 0 := by norm_num [halfBands]
  have hle : halfBands.B11 ≤ halfBands.B12 := le_refl _
  exact ⟨hv, h12, hle, (analyzeSoilMoisture_floor_critical halfBands 0 hv h12 hle).1⟩

/-- C5 (amended): for every band reading in the unit interval whose SWIR
bands are not both zero, and every location, clay and sand are finite
values in [0, 100] and silt is exactly the clamped remainder
max(0, 100 - clay - sand).  (When B11 = B12 = 0 the clay ratio is NaN —
see the counterexample.) -/
theorem analyzeSoilComposition_clay_sand_silt (b : Bands) (lat : ℚ)
    (hv : bandsValid b = true) (hz : ¬(b.B11 = 0 ∧ b.B12 = 0)) :
    ∃ c s : ℚ, (analyzeSoilComposition b lat).clay = .fin c ∧
      (analyzeSoilComposition b lat).sand = .fin s ∧
      0 ≤ c ∧ c ≤ 100 ∧ 0 ≤ s ∧ s ≤ 100 ∧
      (analyzeSoilComposition b lat).silt = .fin (Max.max 0 (100 - c - s)) := by
  have hB11 : 0 ≤ b.B11 := ((bandsValid_iff b).mp hv).2.2.2.2.2.1.1
  have hB12 : 0 ≤ b.B12 := ((bandsValid_iff b).mp hv).2.2.2.2.2.2.1
  by_cases h12 : b.B12 = 0
  · have h11 : 0 < b.B11 :=
      lt_of_le_of_ne hB11 (fun hh => hz ⟨hh.symm, h12⟩)
    have hcc : clayContent b = .posInf := by
      unfold clayContent
      rw [h12]
      exact jsDiv_pos_zero _ h11
    have hclay : (analyzeSoilComposition b lat).clay = .fin 100 := by
      show JsVal.max (.fin 0) (JsVal.min (.fin 100) (JsVal.mul (clayContent b) (.fin 40))) = _
      rw [hcc]
      norm_num [JsVal.mul, JsVal.min, JsVal.max]
    have hsand : (analyzeSoilComposition b lat).sand = .fin 0 := by
      show JsVal.max (.fin 0)
        (JsVal.min (.fin 100) (JsVal.mul (JsVal.sub (.fin 2) (clayContent b)) (.fin 30))) = _
      rw [hcc]
      norm_num [JsVal.mul, JsVal.min, JsVal.max, JsVal.sub, JsVal.add, JsVal.neg]
    have hsilt : (analyzeSoilComposition b lat).silt = .fin (Max.max 0 (100 - 100 - 0)) := by
      show JsVal.max (.fin 0)
        (JsVal.sub (JsVal.sub (.fin 100) (compositionBase b lat).clay)
          (compositionBase b lat).sand) = _
      have h1 : (compositionBase b lat).clay = .fin 100 := hclay
      have h2 : (compositionBase b lat).sand = .fin 0 := hsand
      rw [h1, h2]
      norm_num
    exact ⟨100, 0, hclay, hsand, by norm_num, by norm_num, by norm_num, by norm_num, hsilt⟩
  · have hcc : clayContent b = .fin (b.B11 / b.B12) := by
      unfold clayContent
      exact jsDiv_ne_zero _ _ h12
    have hclay : (analyzeSoilComposition b lat).clay =
        .fin (Max.max 0 (Min.min 100 (b.B11 / b.B12 * 40))) := by
      show JsVal.max (.fin 0) (JsVal.min (.fin 100) (JsVal.mul (clayContent b) (.fin 40))) = _
      rw [hcc]
      simp
    have hsand : (analyzeSoilComposition b lat).sand =
        .fin (Max.max 0 (Min.min 100 ((2 - b.B11 / b.B12) * 30))) := by
      show JsVal.max (.fin 0)
        (JsVal.min (.fin 100) (JsVal.mul (JsVal.sub (.fin 2) (clayContent b)) (.fin 30))) = _
      rw [hcc]
      simp
    have hsilt : (analyzeSoilComposition b lat).silt =
        .fin (Max.max 0 (100 - Max.max 0 (Min.min 100 (b.B11 / b.B12 * 40)) -
          Max.max 0 (Min.min 100 ((2 - b.B11 / b.B12) * 30)))) := by
      show JsVal.max (.fin 0)
        (JsVal.sub (JsVal.sub (.fin 100) (compositionBase b lat).clay)
          (compositionBase b lat).sand) = _
      have h1 : (compositionBase b lat).clay =
          .fin (Max.max 0 (Min.min 100 (b.B11 / b.B12 * 40))) := hclay
      have h2 : (compositionBase b lat).sand =
          .fin (Max.max 0 (Min.min 100 ((2 - b.B11 / b.B12) * 30))) := hsand
      rw [h1, h2]
      simp
    exact ⟨_, _, hclay, hsand, le_max_left _ _, max_le (by norm_num) (min_le_left _ _),
      le_max_left _ _, max_le (by norm_num) (min_le_left _ _), hsilt⟩

/-- Counterexample to C5 as stated: at the valid all-zero reading the clay
ratio is 0/0, so clay is NaN and not a value in [0, 100]. -/
theorem analyzeSoilComposition_nan_counterexample :
    bandsValid zeroBands = true ∧
    (analyzeSoilComposition zeroBands 0).clay = JsVal.nan ∧
    JsVal.inRangeB (analyzeSoilComposition zeroBands 0).clay 0 100 = false := by
  have h1 : (analyzeSoilComposition zeroBands 0).clay = JsVal.nan := by
    show JsVal.max (.fin 0)
      (JsVal.min (.fin 100) (JsVal.mul (clayContent zeroBands) (.fin 40))) = _
    norm_num [clayContent, jsDiv, zeroBands, JsVal.mul, JsVal.min, JsVal.max]
  exact ⟨by norm_num [bandsValid, zeroBands], h1, by rw [h1]; rfl⟩

/-- Witness for C5 (amended) at a concrete non-degenerate reading. -/
theorem analyzeSoilComposition_clay_sand_silt_witness :
    bandsValid halfBands = true ∧ ¬(halfBands.B11 = 0 ∧ halfBands.B12 = 0) ∧
    ∃ c s : ℚ, (analyzeSoilComposition halfBands 0).clay = .fin c ∧
      (analyzeSoilComposition halfBands 0).sand = .fin s ∧
      0 ≤ c ∧ c ≤ 100 ∧ 0 ≤ s ∧ s ≤ 100 ∧
      (analyzeSoilComposition halfBands 0).silt = .fin (Max.max 0 (100 - c - s)) := by
  have hv : bandsValid halfBands = true := by norm_num [bandsValid, halfBands]
  have hz : ¬(halfBands.B11 = 0 ∧ halfBands.B12 = 0) := by norm_num [halfBands]
  exact ⟨hv, hz, analyzeSoilComposition_clay_sand_silt halfBands 0 hv hz⟩

/-- C6 (amended): for a single candidate scene with cloud cover 8 percent
and age 0 days, the confidence scorer returns "medium": the score is
100 - 8*2 - 20 = 64, which falls in the 60-80 band, not above 80. -/
theorem calculateConfidence_single_fresh_scene_medium (s : Scene) (nowMs : ℤ)
    (hcc : s.cloudCover = 8) (hdate : s.date = nowMs) :
    calculateConfidence s [s] nowMs = "medium" := by
  unfold calculateConfidence
  rw [hcc, hdate]
  norm_num [min_eq_right, max_eq_right]

/-- Counterexample to C6 as stated: the concrete single fresh scene with
cloud cover 8 does not get the label "high". -/
theorem calculateConfidence_not_high_counterexample :
    calculateConfidence cScene [cScene] 0 ≠ "high" := by
  unfold calculateConfidence cScene
  norm_num [min_eq_right, max_eq_right]
  decide

/-- Witness for C6 (amended) at the concrete scene. -/
theorem calculateConfidence_medium_witness :
    cScene.cloudCover = 8 ∧ cScene.date = 0 ∧
    calculateConfidence cScene [cScene] 0 = "medium" :=
  ⟨rfl, rfl, calculateConfidence_single_fresh_scene_medium cScene 0 rfl rfl⟩

/-- Counterexample to C8 as stated: the same moisture, composition, indices
and location inputs produce different recommendation lists when the two
invocations happen in different calendar months (month 3, spring, versus
month 6, summer) — the seasonal-advice fields read the ambient clock. -/
theorem generateRecommendations_ambient_counterexample :
    generateRecommendations m0 comp0 idx0 3 ≠ generateRecommendations m0 comp0 idx0 6 := by
  norm_num [generateRecommendations, addSoilHealthRecommendations, addCropRecommendations,
    addSustainabilityRecommendations, m0, comp0, idx0, f0, criticalIrrigationRec,
    irrigationManagementRec, drainageManagementRec, urgentRevegetationRec,
    vegetationEnhancementRec, soilStructureRec, waterRetentionRec, organicMatterRec,
    severeAcidityRec, mildAcidityRec, alkalinityRec, waterStressRec, soilBiologyRec,
    erosionPreventionRec, cropSelectionRec, carbonSequestrationRec, biodiversityRec,
    getSeasonalAdvice, seasonalAdviceTable, getSeason]
  simp

/-- C8 (amended): the recommendation generator is deterministic in its
explicit inputs together with the season of the ambient date: two
invocations with identical moisture, composition, indices and location
whose ambient months map to the same season produce identical lists. -/
theorem generateRecommendations_same_season (moisture : MoistureResult)
    (composition : CompositionResult) (indices : Indices) (m1 m2 : ℕ)
    (h : getSeason m1 = getSeason m2) :
    generateRecommendations moisture composition indices m1 =
      generateRecommendations moisture composition indices m2 := by
  have hadv : ∀ p, getSeasonalAdvice p m1 = getSeasonalAdvice p m2 := by
    intro p
    unfold getSeasonalAdvice
    rw [h]
  simp only [generateRecommendations, addSoilHealthRecommendations, addCropRecommendations,
    addSustainabilityRecommendations, criticalIrrigationRec, irrigationManagementRec,
    drainageManagementRec, urgentRevegetationRec, vegetationEnhancementRec, soilStructureRec,
    waterRetentionRec, organicMatterRec, severeAcidityRec, mildAcidityRec, alkalinityRec,
    waterStressRec, soilBiologyRec, erosionPreventionRec, cropSelectionRec, biodiversityRec,
    hadv]

/-- Witness for C8 (amended): months 2 and 4 are both spring, and the
generated lists coincide. -/
theorem generateRecommendations_same_season_witness :
    getSeason 2 = getSeason 4 ∧
    generateRecommendations m0 comp0 idx0 2 = generateRecommendations m0 comp0 idx0 4 :=
  ⟨by decide, generateRecommendations_same_season m0 comp0 idx0 2 4 (by decide)⟩
